import Mathlib

/-
  Verification development for the tsuru postgres API service
  (src/postgresapi/models.py).

  The Python module is shallowly embedded:
  - strings are Lean Strings; Python byte strings become lists of byte
    values (all concrete inputs used here are ASCII, where the two agree);
  - hashlib.sha1 and hmac-sha1 are implemented bit-for-bit over Nat with
    explicit reduction modulo 2^32 (validated against the standard test
    vectors);
  - app.config is a record (the HMAC salt and the shared-cluster settings
    are configuration, so they are explicit parameters);
  - the instance catalog table is a list of rows; a transaction that
    raises leaves the catalog unchanged;
  - the physical cluster reached through ClusterManager.create_database is
    abstracted as a function from the database name to a result that is
    either success or a raised driver exception (psycopg2.ProgrammingError
    with its args, or any other exception).
-/

/-! ## SHA-1 and HMAC-SHA1 (hashlib.sha1 / hmac.new(salt, digestmod=sha1)) -/

/-- Reduction of a machine word modulo 2^32. -/
def w32 (x : Nat) : Nat := x % 4294967296

/-- Left rotation of a 32-bit word by n bits. -/
def rotl32 (x n : Nat) : Nat := w32 ((x <<< n) ||| (x >>> (32 - n)))

/-- Round constants of SHA-1. -/
def sha1K (i : Nat) : Nat :=
  if i < 20 then 0x5A827999
  else if i < 40 then 0x6ED9EBA1
  else if i < 60 then 0x8F1BBCDC
  else 0xCA62C1D6

/-- Round functions of SHA-1. -/
def sha1F (i b c d : Nat) : Nat :=
  if i < 20 then (b &&& c) ||| ((b ^^^ 0xFFFFFFFF) &&& d)
  else if i < 40 then (b ^^^ c) ^^^ d
  else if i < 60 then ((b &&& c) ||| (b &&& d)) ||| (c &&& d)
  else (b ^^^ c) ^^^ d

/-- State of the SHA-1 compression function: five 32-bit words. -/
structure Sha1State where
  a : Nat
  b : Nat
  c : Nat
  d : Nat
  e : Nat
deriving DecidableEq, Repr

/-- Initial SHA-1 chaining value. -/
def sha1Init : Sha1State := ⟨0x67452301, 0xEFCDAB89, 0x98BADCFE, 0x10325476, 0xC3D2E1F0⟩

/-- Message schedule: 16 big-endian words from a 64-byte block, expanded to 80. -/
def sha1Words (block : List Nat) : List Nat :=
  let w16 := (List.range 16).map fun i =>
    (((block.getD (4 * i) 0) <<< 24) ||| ((block.getD (4 * i + 1) 0) <<< 16)) |||
    (((block.getD (4 * i + 2) 0) <<< 8) ||| (block.getD (4 * i + 3) 0))
  (List.range 80).foldl (fun ws i =>
    if i < 16 then ws ++ [w16.getD i 0]
    else
      let x := ((ws.getD (i - 3) 0) ^^^ (ws.getD (i - 8) 0)) ^^^
               ((ws.getD (i - 14) 0) ^^^ (ws.getD (i - 16) 0))
      ws ++ [rotl32 x 1]) []

/-- One round of the SHA-1 compression function. -/
def sha1Step (st : Sha1State) (iw : Nat × Nat) : Sha1State :=
  let t := w32 (rotl32 st.a 5 + sha1F iw.1 st.b st.c st.d + st.e + sha1K iw.1 + iw.2)
  ⟨t, st.a, rotl32 st.b 30, st.c, st.d⟩

/-- SHA-1 compression of one 64-byte block. -/
def sha1Compress (h : Sha1State) (block : List Nat) : Sha1State :=
  let ws := sha1Words block
  let f := ((List.range 80).zip ws).foldl sha1Step h
  ⟨w32 (h.a + f.a), w32 (h.b + f.b), w32 (h.c + f.c), w32 (h.d + f.d), w32 (h.e + f.e)⟩

/-- Big-endian byte serialization of x into n bytes. -/
def beBytes (n x : Nat) : List Nat :=
  (List.range n).map fun i => (x >>> (8 * (n - 1 - i))) % 256

/-- SHA-1 padding: 0x80, zeros to 56 mod 64, then the 64-bit bit length. -/
def sha1Pad (msg : List Nat) : List Nat :=
  let len := msg.length
  let zeros := (56 + 64 - (len + 1) % 64) % 64
  msg ++ [0x80] ++ List.replicate zeros 0 ++ beBytes 8 (8 * len)

/-- SHA-1 digest (20 bytes) of a byte string. -/
def sha1Bytes (msg : List Nat) : List Nat :=
  let padded := sha1Pad msg
  let blocks := (List.range (padded.length / 64)).map fun i => (padded.drop (64 * i)).take 64
  let h := blocks.foldl sha1Compress sha1Init
  beBytes 4 h.a ++ beBytes 4 h.b ++ beBytes 4 h.c ++ beBytes 4 h.d ++ beBytes 4 h.e

/-- Lowercase hex digit for a nibble, as in hexdigest(). -/
def hexChar (n : Nat) : Char := if n < 10 then Char.ofNat (48 + n) else Char.ofNat (87 + n)

/-- Hex character sequence of a byte string (two digits per byte). -/
def toHexData (bs : List Nat) : List Char :=
  bs.flatMap fun b => [hexChar (b / 16 % 16), hexChar (b % 16)]

/-- Python hexdigest() of a byte string. -/
def toHexStr (bs : List Nat) : String := ⟨toHexData bs⟩

/-- Byte values of an ASCII string (Python 2 str). -/
def strBytes (s : String) : List Nat := s.data.map Char.toNat

/-- HMAC-SHA1 with the given key, as hmac.new(key, digestmod=hashlib.sha1). -/
def hmacSha1 (key msg : List Nat) : List Nat :=
  let k0 := if key.length > 64 then sha1Bytes key else key
  let k := k0 ++ List.replicate (64 - k0.length) 0
  let ipad := k.map (· ^^^ 0x36)
  let opad := k.map (· ^^^ 0x5c)
  sha1Bytes (opad ++ sha1Bytes (ipad ++ msg))

/-! ## Pure helpers of models.py -/

/-- Python slicing s[:n]. -/
def strTake (s : String) (n : Nat) : String := ⟨s.data.take n⟩

/-- Word character of the Python re module for byte strings: [A-Za-z0-9_]. -/
def isWordChar (c : Char) : Bool := c.isAlphanum || c == '_'

/-- Whitespace character of the Python re module for byte strings:
space, tab, newline, carriage return, vertical tab, form feed. -/
def isSpaceChar (c : Char) : Bool :=
  ((c == ' ' || c == '\t') || (c == '\n' || c == '\r')) ||
  (c == Char.ofNat 11 || c == Char.ofNat 12)

/-- A character matched by the regex class [\W\s] of canonicalize_db_name. -/
def isBadChar (c : Char) : Bool := !(isWordChar c) || isSpaceChar c

/-- generate_password(string, host): HMAC-SHA1 hexdigest over the salt from
app.config, updated with string then host (i.e. over their concatenation). -/
def generate_password (salt string host : String) : String :=
  toHexStr (hmacSha1 (strBytes salt) (strBytes string ++ strBytes host))

/-- generate_user(string, host): the string truncated to 10 characters when
longer, then the first 6 hex characters of generate_password applied to the
(possibly truncated) string. -/
def generate_user (salt string host : String) : String :=
  let s := if string.data.length > 10 then strTake string 10 else string
  s ++ strTake (generate_password salt s host) 6

/-- generate_group(string): first 10 characters plus the literal suffix
"_group" when the string is longer than 10 characters, else unchanged. -/
def generate_group (string : String) : String :=
  if string.data.length > 10 then strTake string 10 ++ "_group" else string

/-- canonicalize_db_name(name): when re.search finds a [\W\s] character,
re.sub replaces each such character by an underscore and the first 10 hex
characters of the SHA-1 digest of the original name are appended; otherwise
the name is returned unchanged. -/
def canonicalize_db_name (name : String) : String :=
  if name.data.any isBadChar then
    (⟨name.data.map fun c => if isBadChar c then '_' else c⟩ : String) ++
      strTake (toHexStr (sha1Bytes (strBytes name))) 10
  else name

/-- Python substring containment: needle in hay. -/
def strContains (hay needle : String) : Bool :=
  (List.range (hay.data.length + 1)).any fun i => needle.data.isPrefixOf (hay.data.drop i)

/-! ## Data model: catalog rows, exceptions, cluster manager, instances -/

/-- A row of the instance catalog table (columns name, state, shared). -/
structure Row where
  name : String
  state : String
  shared : Bool
deriving DecidableEq, Repr

/-- An exception raised by the database driver inside create_database:
psycopg2.ProgrammingError carrying its args, or any other exception. -/
inductive DbRaise where
  | programming (args : List String)
  | other (desc : String)
deriving DecidableEq, Repr

/-- Exceptions observable from the model layer: the four error classes the
module defines, plus raw driver exceptions and NotImplementedError, which
the module can let propagate unwrapped. -/
inductive PyExc where
  | invalidInstanceName (name : String)
  | instanceAlreadyExists (name : String)
  | instanceNotFound (name : String)
  | databaseCreationError
  | pgProgrammingError (args : List String)
  | dbOther (desc : String)
  | notImplementedError (msg : String)
deriving DecidableEq, Repr

/-- ClusterManager connection settings; publicHostOverride holds the
_public_host constructor argument (None or a string). -/
structure ClusterManager where
  host : String
  port : Nat
  user : String
  password : String
  publicHostOverride : Option String
deriving DecidableEq, Repr

/-- ClusterManager.public_host: the _public_host attribute when it is truthy
(a non-empty string), otherwise the connection host. -/
def ClusterManager.public_host (cm : ClusterManager) : String :=
  match cm.publicHostOverride with
  | some s => if s = "" then cm.host else s
  | none => cm.host

/-- Relevant keys of app.config: the shared-cluster settings and the HMAC
salt. -/
structure AppConfig where
  shared_host : String
  shared_port : Nat
  shared_admin : String
  shared_admin_password : String
  shared_public_host : Option String
  salt : String
deriving DecidableEq, Repr

/-- An Instance object: canonical name, shared flag, state. -/
structure Instance where
  name : String
  shared : Bool
  state : String
deriving DecidableEq, Repr

/-- Instance.__init__: canonicalizes the name, sets shared=True and
state='pending'. -/
def Instance.init (name : String) : Instance :=
  ⟨canonicalize_db_name name, true, "pending"⟩

/-- Instance.cluster_manager: for a shared instance, a ClusterManager built
from the SHARED_* configuration keys; for a non-shared instance,
NotImplementedError is raised before any ClusterManager is constructed. -/
def Instance.cluster_manager (cfg : AppConfig) (inst : Instance) :
    Except PyExc ClusterManager :=
  if inst.shared then
    .ok ⟨cfg.shared_host, cfg.shared_port, cfg.shared_admin,
         cfg.shared_admin_password, cfg.shared_public_host⟩
  else
    .error (.notImplementedError "Currently only shared host is supported")

/-- Instance.create: inside a catalog transaction, construct the instance
(canonicalizing the name), fail with InstanceAlreadyExists when a row with
the canonical name exists, then call create_database on the cluster
(abstracted as the create_database argument; the instance is shared, so
cluster_manager resolution succeeds). A ProgrammingError whose args are
truthy and whose first arg contains 'already exists' is reclassified as
InstanceAlreadyExists; any other raised exception propagates as itself.
On success the row is inserted with state='running'. A raised exception
aborts the transaction, leaving the catalog unchanged. -/
def Instance.create (catalog : List Row)
    (create_database : String → Except DbRaise Unit) (name : String) :
    Except PyExc Instance × List Row :=
  let inst := Instance.init name
  if catalog.any (fun r => r.name == inst.name) then
    (.error (.instanceAlreadyExists inst.name), catalog)
  else
    match create_database inst.name with
    | .error (.programming args) =>
        if !args.isEmpty && strContains (args.headD "") "already exists" then
          (.error (.instanceAlreadyExists inst.name), catalog)
        else
          (.error (.pgProgrammingError args), catalog)
    | .error (.other d) => (.error (.dbOther d), catalog)
    | .ok _ =>
        let inst2 : Instance := { inst with state := "running" }
        (.ok inst2, catalog ++ [⟨inst2.name, inst2.state, inst2.shared⟩])

/-- Instance.retrieve: select the row whose name equals the canonical name;
when fetchone returns no row the TypeError from unpacking is caught and
InstanceNotFound is raised; otherwise the instance carries the row's state
and shared flag. -/
def Instance.retrieve (catalog : List Row) (name : String) :
    Except PyExc Instance :=
  let inst := Instance.init name
  match catalog.find? (fun r => r.name == inst.name) with
  | none => .error (.instanceNotFound inst.name)
  | some r => .ok { inst with state := r.state, shared := r.shared }

/-- A statement issued against the physical cluster by drop_database. -/
inductive ClusterOp where
  | dropDatabase (name : String)
  | dropRole (name : String)
deriving DecidableEq, Repr

/-- Instance.delete: retrieve first (propagating InstanceNotFound, in which
case no cluster statement is issued and the catalog row deletion is never
reached); on success drop_database issues DROP DATABASE and DROP ROLE for
the group, and the catalog row is deleted. -/
def Instance.delete (catalog : List Row) (name : String) :
    Except PyExc Unit × List Row × List ClusterOp :=
  match Instance.retrieve catalog name with
  | .error e => (.error e, catalog, [])
  | .ok inst =>
      (.ok (), catalog.filter (fun r => !(r.name == inst.name)),
       [.dropDatabase inst.name, .dropRole (generate_group inst.name)])

/-! ## Spec-side definitions -/

/-- Modelled from the spec: membership in the character class [A-Za-z0-9_]
(code points 65-90, 97-122, 48-57, underscore), the class the spec says
canonical names are built from. -/
def isIdentChar (c : Char) : Bool :=
  ((c.val ≥ 65 && c.val ≤ 90) || (c.val ≥ 97 && c.val ≤ 122)) ||
  ((c.val ≥ 48 && c.val ≤ 57) || c == '_')

/-- Modelled from the spec (as amended): a name with only [A-Za-z0-9_]
characters is returned unchanged; otherwise each character outside the class
is replaced by an underscore and a 10-character hex suffix of the content
hash of the original name is appended. -/
def canonicalize_spec (name : String) : String :=
  if name.data.all isIdentChar then name
  else
    (⟨name.data.map fun c => if isIdentChar c then c else '_'⟩ : String) ++
      strTake (toHexStr (sha1Bytes (strBytes name))) 10

/-! ## Helper lemmas -/

lemma word_eq_ident (c : Char) : isWordChar c = isIdentChar c := by
  simp [isWordChar, isIdentChar, Char.isAlphanum, Char.isAlpha, Char.isUpper,
    Char.isLower, Char.isDigit, Bool.or_assoc]

lemma space_not_word (c : Char) (h : isSpaceChar c = true) : isWordChar c = false := by
  simp [isSpaceChar] at h
  rcases h with ((h | h) | (h | h)) | (h | h) <;> subst h <;> decide

lemma bad_eq_not_word (c : Char) : isBadChar c = !(isWordChar c) := by
  rcases hw : isWordChar c with _ | _
  · simp [isBadChar, hw]
  · have hs : isSpaceChar c = false := by
      rcases hsp : isSpaceChar c with _ | _
      · rfl
      · rw [space_not_word c hsp] at hw; exact absurd hw (by simp)
    simp [isBadChar, hw, hs]

lemma hexChar_word (m : Nat) (h : m < 16) : isWordChar (hexChar m) = true := by
  revert h
  revert m
  decide

lemma toHexData_word (bs : List Nat) (c : Char) (h : c ∈ toHexData bs) :
    isWordChar c = true := by
  simp only [toHexData, List.mem_flatMap] at h
  obtain ⟨b, _, hc⟩ := h
  simp only [List.mem_cons, List.mem_singleton] at hc
  rcases hc with hc | hc | hc
  · subst hc; exact hexChar_word _ (Nat.mod_lt _ (by norm_num))
  · subst hc; exact hexChar_word _ (Nat.mod_lt _ (by norm_num))
  · cases hc

lemma canonicalize_all_word (s : String) :
    (canonicalize_db_name s).data.all isWordChar = true := by
  by_cases h : s.data.any isBadChar = true
  · rw [canonicalize_db_name, if_pos h]
    rw [List.all_eq_true]
    intro c hc
    rw [String.data_append] at hc
    rcases List.mem_append.mp hc with hm | hm
    · simp only [List.mem_map] at hm
      obtain ⟨a, _, ha⟩ := hm
      by_cases hb : isBadChar a = true
      · rw [if_pos hb] at ha; subst ha; decide
      · rw [if_neg hb] at ha
        subst ha
        have hbf : isBadChar a = false := Bool.eq_false_iff.mpr hb
        rw [bad_eq_not_word] at hbf
        simpa using hbf
    · have : c ∈ toHexData (sha1Bytes (strBytes s)) :=
        List.mem_of_mem_take (by simpa [strTake, toHexStr] using hm)
      exact toHexData_word _ _ this
  · rw [canonicalize_db_name, if_neg h]
    rw [List.all_eq_true]
    intro c hc
    have hb : isBadChar c = false := by
      rcases hbc : isBadChar c with _ | _
      · rfl
      · exact absurd (List.any_eq_true.mpr ⟨c, hc, hbc⟩) h
    rw [bad_eq_not_word] at hb
    simpa using hb

lemma bad_eq_not_ident (c : Char) : isBadChar c = !isIdentChar c := by
  rw [bad_eq_not_word, word_eq_ident]

lemma strTake_data (s : String) (n : Nat) : (strTake s n).data = s.data.take n := rfl

lemma data_length_append (a b : String) :
    (a ++ b).data.length = a.data.length + b.data.length := by
  rw [String.data_append, List.length_append]

set_option maxRecDepth 40000

/-- C5: canonicalization is idempotent: a canonical name contains only word
characters, so a second canonicalization finds nothing to replace and
returns it unchanged. -/
theorem canonicalize_idempotent (s : String) :
    canonicalize_db_name (canonicalize_db_name s) = canonicalize_db_name s := by
  have hall := canonicalize_all_word s
  rw [List.all_eq_true] at hall
  have hany : (canonicalize_db_name s).data.any isBadChar = false := by
    rw [List.any_eq_false]
    intro c hc
    rw [bad_eq_not_word, hall c hc]
    simp
  rw [canonicalize_db_name, if_neg (by simp [hany])]

/-- C7: every character of a canonicalized name lies in [A-Za-z0-9_], so the
result is usable as a SQL identifier with no whitespace or punctuation. -/
theorem canonicalize_chars_ident (s : String) :
    (canonicalize_db_name s).data.all isIdentChar = true := by
  have hall := canonicalize_all_word s
  rw [List.all_eq_true] at hall ⊢
  intro c hc
  rw [← word_eq_ident]
  exact hall c hc

/-- C4 counterexample: on the input "a!!b" the code replaces each of the two
forbidden characters by its own underscore, producing "a__b" plus the hash
suffix, not "a_b" plus the hash suffix as collapsing the maximal run to a
single underscore would give. -/
theorem canonicalize_runs_cex :
    canonicalize_db_name "a!!b" =
      ("a__b" ++ strTake (toHexStr (sha1Bytes (strBytes "a!!b"))) 10) ∧
    canonicalize_db_name "a!!b" ≠
      ("a_b" ++ strTake (toHexStr (sha1Bytes (strBytes "a!!b"))) 10) := by
  constructor
  · decide
  · decide

/-- C4 as amended: canonicalize replaces every character outside [A-Za-z0-9_]
(including whitespace) individually by an underscore — a run of k such
characters becomes k underscores — and appends the 10-character hex suffix of
the content hash of the original string; a string with no such character is
returned unchanged. Stated as equality with the spec-side function. -/
theorem canonicalize_eq_spec (name : String) :
    canonicalize_db_name name = canonicalize_spec name := by
  have hfun : (fun c => if isBadChar c then '_' else c) =
      (fun c => if isIdentChar c then c else '_') := by
    funext c
    rw [bad_eq_not_ident]
    rcases h : isIdentChar c with _ | _ <;> simp [h]
  by_cases h : name.data.all isIdentChar = true
  · have hany : name.data.any isBadChar = false := by
      rw [List.any_eq_false]
      intro c hc
      rw [List.all_eq_true] at h
      rw [bad_eq_not_ident, h c hc]
      simp
    rw [canonicalize_db_name, if_neg (by simp [hany]), canonicalize_spec, if_pos h]
  · have h' : name.data.all isIdentChar = false := Bool.eq_false_iff.mpr h
    rw [List.all_eq_false] at h'
    obtain ⟨c, hc, hnc⟩ := h'
    have hany : name.data.any isBadChar = true := by
      rw [List.any_eq_true]
      refine ⟨c, hc, ?_⟩
      rw [bad_eq_not_ident, Bool.eq_false_iff.mpr hnc]
      simp
    rw [canonicalize_db_name, if_pos hany, canonicalize_spec, if_neg h, hfun]

/-- C2 counterexample: with salt "salt", the 11-character name "abcdefghijk"
and host "localhost", the 6-character suffix produced by generate_user comes
from the digest of the truncated name "abcdefghij" ("73d413"), which differs
from the first 6 hex characters of the digest of the full name ("599e52"). -/
theorem generate_user_fullname_cex :
    generate_user "salt" "abcdefghijk" "localhost" ≠
      strTake "abcdefghijk" 10 ++
        strTake (generate_password "salt" "abcdefghijk" "localhost") 6 := by
  decide

/-- C2 as amended: generate_user returns the first 10 characters of the name
(all of it when no longer than 10) followed by the first 6 hex characters of
the password digest computed over the truncated (first-10-characters) name,
and its length is at most 16. -/
theorem generate_user_truncated_digest (salt name host : String) :
    generate_user salt name host =
      strTake name 10 ++ strTake (generate_password salt (strTake name 10) host) 6 ∧
    (generate_user salt name host).data.length ≤ 16 := by
  have htail : ∀ s : String, (strTake s 10 ++
      strTake (generate_password salt (strTake s 10) host) 6).data.length ≤ 16 := by
    intro s
    rw [data_length_append, strTake_data, strTake_data]
    have h1 : (s.data.take 10).length ≤ 10 := List.length_take_le 10 s.data
    have h2 : ((generate_password salt (strTake s 10) host).data.take 6).length ≤ 6 :=
      List.length_take_le 6 _
    omega
  by_cases h : name.data.length > 10
  · constructor
    · simp only [generate_user, if_pos h]
    · have := htail name
      simpa only [generate_user, if_pos h] using this
  · have ht : strTake name 10 = name := by
      have h10 : name.data.take 10 = name.data :=
        List.take_of_length_le (Nat.le_of_not_lt h)
      show (⟨name.data.take 10⟩ : String) = name
      rw [h10]
    constructor
    · simp only [generate_user, if_neg h, ht]
    · have := htail name
      rw [ht] at this
      simpa only [generate_user, if_neg h] using this

/-- C8: generate_group returns the name unchanged when its length is at most
10, and the first 10 characters followed by the literal suffix "_group" when
it is longer. -/
theorem generate_group_cases (string : String) :
    (string.data.length ≤ 10 → generate_group string = string) ∧
    (10 < string.data.length →
      generate_group string = strTake string 10 ++ "_group") := by
  constructor
  · intro h
    rw [generate_group, if_neg (by omega)]
  · intro h
    rw [generate_group, if_pos h]

/-- C8 witness: the short name "shortname" is returned unchanged and the long
name "a_very_long_instance_name" becomes its first 10 characters plus
"_group". -/
theorem generate_group_cases_witness :
    generate_group "shortname" = "shortname" ∧
    generate_group "a_very_long_instance_name" = "a_very_lon_group" := by
  constructor
  · exact (generate_group_cases "shortname").1 (by decide)
  · rw [(generate_group_cases "a_very_long_instance_name").2 (by decide)]
    decide

/-- Evaluation shape of Instance.create: the definition unfolds to this
explicit case split (definitional equality). -/
lemma create_eval (catalog : List Row)
    (cdb : String → Except DbRaise Unit) (name : String) :
    Instance.create catalog cdb name =
      (if catalog.any (fun r => r.name == canonicalize_db_name name) then
        (.error (.instanceAlreadyExists (canonicalize_db_name name)), catalog)
      else
        match cdb (canonicalize_db_name name) with
        | .error (.programming args) =>
            if !args.isEmpty && strContains (args.headD "") "already exists" then
              (.error (.instanceAlreadyExists (canonicalize_db_name name)), catalog)
            else
              (.error (.pgProgrammingError args), catalog)
        | .error (.other d) => (.error (.dbOther d), catalog)
        | .ok _ =>
            (.ok ⟨canonicalize_db_name name, true, "running"⟩,
             catalog ++ [⟨canonicalize_db_name name, "running", true⟩])) := rfl

/-- Decidable equality for results of the embedded operations. -/
instance instDecEqExcept {e a : Type} [DecidableEq e] [DecidableEq a] :
    DecidableEq (Except e a) := fun x y =>
  match x, y with
  | .ok v, .ok w =>
      if h : v = w then isTrue (by rw [h]) else
        isFalse (fun hq => h (Except.ok.inj hq))
  | .error v, .error w =>
      if h : v = w then isTrue (by rw [h]) else
        isFalse (fun hq => h (Except.error.inj hq))
  | .ok _, .error _ => isFalse (fun hq => Except.noConfusion hq)
  | .error _, .ok _ => isFalse (fun hq => Except.noConfusion hq)

/-- Evaluation of Instance.create when the pre-check finds a row. -/
lemma create_eval_found (catalog : List Row)
    (cdb : String → Except DbRaise Unit) (name : String)
    (hpre : catalog.any (fun r => r.name == canonicalize_db_name name) = true) :
    Instance.create catalog cdb name =
      (.error (.instanceAlreadyExists (canonicalize_db_name name)), catalog) := by
  rw [create_eval, hpre]
  rfl

/-- Evaluation of Instance.create when the pre-check misses and
create_database succeeds. -/
lemma create_eval_ok (catalog : List Row)
    (cdb : String → Except DbRaise Unit) (name : String) (u : Unit)
    (hpre : catalog.any (fun r => r.name == canonicalize_db_name name) = false)
    (hc : cdb (canonicalize_db_name name) = .ok u) :
    Instance.create catalog cdb name =
      (.ok ⟨canonicalize_db_name name, true, "running"⟩,
       catalog ++ [⟨canonicalize_db_name name, "running", true⟩]) := by
  rw [create_eval, hpre, hc]
  rfl

/-- Evaluation of Instance.create when the pre-check misses and
create_database raises a ProgrammingError: the result is decided by the
already-exists test on the args. -/
lemma create_eval_prog (catalog : List Row)
    (cdb : String → Except DbRaise Unit) (name : String) (args : List String)
    (hpre : catalog.any (fun r => r.name == canonicalize_db_name name) = false)
    (hc : cdb (canonicalize_db_name name) = .error (.programming args)) :
    Instance.create catalog cdb name =
      (if !args.isEmpty && strContains (args.headD "") "already exists" then
        (.error (.instanceAlreadyExists (canonicalize_db_name name)), catalog)
      else
        (.error (.pgProgrammingError args), catalog)) := by
  rw [create_eval, hpre, hc]
  rfl

/-- Evaluation of Instance.create when the pre-check misses and
create_database raises a non-ProgrammingError exception. -/
lemma create_eval_other (catalog : List Row)
    (cdb : String → Except DbRaise Unit) (name : String) (d : String)
    (hpre : catalog.any (fun r => r.name == canonicalize_db_name name) = false)
    (hc : cdb (canonicalize_db_name name) = .error (.other d)) :
    Instance.create catalog cdb name = (.error (.dbOther d), catalog) := by
  rw [create_eval, hpre, hc]
  rfl

/-- C1: Instance.create fails with InstanceAlreadyExists exactly when the
pre-check finds a catalog row with the canonical name, or when the pre-check
finds none and create_database raises a ProgrammingError with truthy args
whose first arg contains 'already exists'; in both cases the transaction
aborts and no catalog row is inserted. -/
theorem create_alreadyExists_iff (catalog : List Row)
    (cdb : String → Except DbRaise Unit) (name : String) :
    ((Instance.create catalog cdb name).1 =
        .error (.instanceAlreadyExists (canonicalize_db_name name)) ↔
      (∃ r ∈ catalog, r.name = canonicalize_db_name name) ∨
        ((∀ r ∈ catalog, r.name ≠ canonicalize_db_name name) ∧
          ∃ args, cdb (canonicalize_db_name name) = .error (.programming args) ∧
            (!args.isEmpty && strContains (args.headD "") "already exists") = true)) ∧
    ((Instance.create catalog cdb name).1 =
        .error (.instanceAlreadyExists (canonicalize_db_name name)) →
      (Instance.create catalog cdb name).2 = catalog) := by
  rcases hpre : catalog.any (fun r => r.name == canonicalize_db_name name) with _ | _
  · have hall : ∀ r ∈ catalog, r.name ≠ canonicalize_db_name name := by
      rw [List.any_eq_false] at hpre
      intro r hr
      simpa using hpre r hr
    have hnotex : ¬ ∃ r ∈ catalog, r.name = canonicalize_db_name name := by
      rintro ⟨r, hr, he⟩
      exact hall r hr he
    cases hc : cdb (canonicalize_db_name name) with
    | ok u =>
      rw [create_eval_ok catalog cdb name u hpre hc]
      refine ⟨⟨fun h => absurd h (by simp), ?_⟩, fun h => absurd h (by simp)⟩
      rintro (h | ⟨-, args, hcd, -⟩)
      · exact absurd h hnotex
      · exact absurd hcd (by simp)
    | error e =>
      cases e with
      | programming args =>
        rw [create_eval_prog catalog cdb name args hpre hc]
        rcases hflag : (!args.isEmpty && strContains (args.headD "") "already exists")
          with _ | _
        · rw [if_neg (by simp)]
          refine ⟨⟨fun h => absurd h (by simp), ?_⟩, fun _ => rfl⟩
          rintro (h | ⟨-, args2, hcd, hfl2⟩)
          · exact absurd h hnotex
          · have heq : args = args2 :=
              DbRaise.programming.inj (Except.error.inj hcd)
            rw [← heq, hflag] at hfl2
            exact Bool.noConfusion hfl2
        · rw [if_pos rfl]
          exact ⟨⟨fun _ => Or.inr ⟨hall, args, rfl, hflag⟩, fun _ => rfl⟩, fun _ => rfl⟩
      | other d =>
        rw [create_eval_other catalog cdb name d hpre hc]
        refine ⟨⟨fun h => absurd h (by simp), ?_⟩, fun _ => rfl⟩
        rintro (h | ⟨-, args2, hcd, -⟩)
        · exact absurd h hnotex
        · exact absurd hcd (by simp)
  · have hex : ∃ r ∈ catalog, r.name = canonicalize_db_name name := by
      rw [List.any_eq_true] at hpre
      obtain ⟨r, hr, hb⟩ := hpre
      exact ⟨r, hr, by simpa using hb⟩
    rw [create_eval_found catalog cdb name hpre]
    exact ⟨⟨fun _ => Or.inl hex, fun _ => rfl⟩, fun _ => rfl⟩

/-- C1 witness: creating "foo" when the catalog already holds a row named
"foo" fails with InstanceAlreadyExists and leaves the catalog unchanged. -/
theorem create_alreadyExists_iff_witness :
    (Instance.create [⟨"foo", "running", true⟩] (fun _ => .ok ()) "foo").1 =
      .error (.instanceAlreadyExists "foo") ∧
    (Instance.create [⟨"foo", "running", true⟩] (fun _ => .ok ()) "foo").2 =
      [⟨"foo", "running", true⟩] := by
  have h := create_alreadyExists_iff [⟨"foo", "running", true⟩] (fun _ => .ok ()) "foo"
  rw [show canonicalize_db_name "foo" = "foo" from by decide] at h
  have hfail := h.1.mpr (Or.inl ⟨⟨"foo", "running", true⟩, by simp, rfl⟩)
  exact ⟨hfail, h.2 hfail⟩

/-- C3 counterexample: a ProgrammingError from create_database whose message
does not report 'already exists' propagates from Instance.create as the raw
driver exception, not as DatabaseCreationError. -/
theorem create_raw_propagation_cex :
    (Instance.create []
        (fun _ => .error (.programming ["syntax error at or near"])) "foo").1 =
      .error (.pgProgrammingError ["syntax error at or near"]) ∧
    (Instance.create []
        (fun _ => .error (.programming ["syntax error at or near"])) "foo").1 ≠
      .error .databaseCreationError := by
  constructor
  · decide
  · decide

/-- C3 as amended: when the pre-check finds no row, a ProgrammingError from
create_database that is not an already-exists condition propagates as the
raw ProgrammingError, any other raised exception propagates as itself, and
Instance.create never fails with DatabaseCreationError. -/
theorem create_propagates_raw (catalog : List Row)
    (cdb : String → Except DbRaise Unit) (name : String) :
    ((∀ r ∈ catalog, r.name ≠ canonicalize_db_name name) →
      ∀ args, cdb (canonicalize_db_name name) = .error (.programming args) →
        (!args.isEmpty && strContains (args.headD "") "already exists") = false →
        (Instance.create catalog cdb name).1 = .error (.pgProgrammingError args)) ∧
    ((∀ r ∈ catalog, r.name ≠ canonicalize_db_name name) →
      ∀ d, cdb (canonicalize_db_name name) = .error (.other d) →
        (Instance.create catalog cdb name).1 = .error (.dbOther d)) ∧
    (Instance.create catalog cdb name).1 ≠ .error .databaseCreationError := by
  refine ⟨?_, ?_, ?_⟩
  · intro hall args hc hflag
    have hpre : catalog.any (fun r => r.name == canonicalize_db_name name) = false := by
      rw [List.any_eq_false]
      intro r hr
      simpa using hall r hr
    rw [create_eval_prog catalog cdb name args hpre hc, hflag, if_neg (by simp)]
  · intro hall d hc
    have hpre : catalog.any (fun r => r.name == canonicalize_db_name name) = false := by
      rw [List.any_eq_false]
      intro r hr
      simpa using hall r hr
    rw [create_eval_other catalog cdb name d hpre hc]
  · rcases hpre : catalog.any (fun r => r.name == canonicalize_db_name name) with _ | _
    · cases hc : cdb (canonicalize_db_name name) with
      | ok u =>
        rw [create_eval_ok catalog cdb name u hpre hc]
        simp
      | error e =>
        cases e with
        | programming args =>
          rw [create_eval_prog catalog cdb name args hpre hc]
          rcases hflag : (!args.isEmpty && strContains (args.headD "") "already exists")
            with _ | _
          · rw [if_neg (by simp)]
            simp
          · rw [if_pos rfl]
            simp
        | other d =>
          rw [create_eval_other catalog cdb name d hpre hc]
          simp
    · rw [create_eval_found catalog cdb name hpre]
      simp

/-- C3 witness: a non-ProgrammingError exception from create_database (a
dropped connection, say) propagates from Instance.create as itself. -/
theorem create_propagates_raw_witness :
    (Instance.create [] (fun _ => .error (.other "connection reset")) "bar").1 =
      .error (.dbOther "connection reset") := by
  have h := create_propagates_raw [] (fun _ => .error (.other "connection reset")) "bar"
  exact h.2.1 (by intro r hr; cases hr) "connection reset" rfl

/-- C6: when no catalog row carries the canonical form of the name,
Instance.retrieve fails with InstanceNotFound, and Instance.delete fails with
the same InstanceNotFound propagated from its internal retrieve, leaving the
catalog unchanged and issuing no cluster drop statement. -/
theorem retrieve_delete_notFound (catalog : List Row) (name : String)
    (h : ∀ r ∈ catalog, r.name ≠ canonicalize_db_name name) :
    Instance.retrieve catalog name =
      .error (.instanceNotFound (canonicalize_db_name name)) ∧
    Instance.delete catalog name =
      (.error (.instanceNotFound (canonicalize_db_name name)), catalog, []) := by
  have hfind : catalog.find? (fun r => r.name == canonicalize_db_name name) = none := by
    rw [List.find?_eq_none]
    intro r hr
    simpa using h r hr
  have hr : Instance.retrieve catalog name =
      .error (.instanceNotFound (canonicalize_db_name name)) := by
    simp [Instance.retrieve, Instance.init, hfind]
  exact ⟨hr, by simp [Instance.delete, hr]⟩

/-- C6 witness: retrieving and deleting "nonexistent" on an empty catalog
both fail with InstanceNotFound, with no catalog change and no cluster
statement. -/
theorem retrieve_delete_notFound_witness :
    Instance.retrieve [] "nonexistent" = .error (.instanceNotFound "nonexistent") ∧
    Instance.delete [] "nonexistent" =
      (.error (.instanceNotFound "nonexistent"), [], []) := by
  have h := retrieve_delete_notFound [] "nonexistent" (by intro r hr; cases hr)
  rw [show canonicalize_db_name "nonexistent" = "nonexistent" from by decide] at h
  exact h

/-- C9: accessing cluster_manager on a non-shared instance raises
NotImplementedError and never builds a ClusterManager; on a shared instance
it returns the ClusterManager built from the SHARED_* configuration. -/
theorem cluster_manager_shared (cfg : AppConfig) (inst : Instance) :
    (inst.shared = false →
      Instance.cluster_manager cfg inst =
        .error (.notImplementedError "Currently only shared host is supported")) ∧
    (inst.shared = true →
      Instance.cluster_manager cfg inst =
        .ok ⟨cfg.shared_host, cfg.shared_port, cfg.shared_admin,
             cfg.shared_admin_password, cfg.shared_public_host⟩) := by
  constructor
  · intro h
    rw [Instance.cluster_manager, if_neg (by simp [h])]
  · intro h
    rw [Instance.cluster_manager, if_pos h]

/-- C9 witness: with a concrete configuration, the non-shared instance fails
with NotImplementedError and the shared instance gets the shared settings. -/
theorem cluster_manager_shared_witness :
    Instance.cluster_manager ⟨"sh", 5432, "admin", "pw", none, "salt"⟩
        ⟨"db", false, "pending"⟩ =
      .error (.notImplementedError "Currently only shared host is supported") ∧
    Instance.cluster_manager ⟨"sh", 5432, "admin", "pw", none, "salt"⟩
        ⟨"db", true, "pending"⟩ =
      .ok ⟨"sh", 5432, "admin", "pw", none⟩ := by
  constructor
  · exact (cluster_manager_shared ⟨"sh", 5432, "admin", "pw", none, "salt"⟩
      ⟨"db", false, "pending"⟩).1 rfl
  · exact (cluster_manager_shared ⟨"sh", 5432, "admin", "pw", none, "salt"⟩
      ⟨"db", true, "pending"⟩).2 rfl

/-- C10: public_host returns the _public_host override only when it is a
non-empty string; when the override is None or the empty string it returns
the connection host. -/
theorem public_host_truthy (cm : ClusterManager) :
    ((cm.publicHostOverride = none ∨ cm.publicHostOverride = some "") →
      cm.public_host = cm.host) ∧
    (∀ s, cm.publicHostOverride = some s → s ≠ "" → cm.public_host = s) := by
  constructor
  · intro h
    rcases h with h | h <;> simp [ClusterManager.public_host, h]
  · intro s hs hne
    simp [ClusterManager.public_host, hs, hne]

/-- C10 witness: an empty-string override falls back to the connection host
and a non-empty override is returned. -/
theorem public_host_truthy_witness :
    ClusterManager.public_host ⟨"conn", 5432, "u", "p", some ""⟩ = "conn" ∧
    ClusterManager.public_host ⟨"conn", 5432, "u", "p", some "pub"⟩ = "pub" := by
  constructor
  · exact (public_host_truthy ⟨"conn", 5432, "u", "p", some ""⟩).1 (Or.inr rfl)
  · exact (public_host_truthy ⟨"conn", 5432, "u", "p", some "pub"⟩).2 "pub" rfl
      (by decide)
